import Mathlib

/-!
Verification of the keyfory user-management service against its design
specification.

The development shallowly embeds the parts of the code base that the
specification's claims are about:

* the persistence gateway and the five route handlers of
  `app/api/v1/users.py` (user store modelled as a list of rows,
  timestamps as abstract clock readings),
* the RabbitMQ producer `app/rabbitmq/producer.py` (broker failures are
  modelled by an explicit failure point; the surrounding try/except is the
  object of study),
* the RabbitMQ consumer `app/rabbitmq/consumer.py` (both the message
  handler composed with aio_pika's `message.process()` context manager,
  and the `stop_consumer` lifecycle function),
* the logging middleware `app/middleware/logging.py` (byte-level header
  handling with a faithful strict UTF-8 codec; `uuid.uuid4()` is an
  oracle parameter).
-/

/-! ## JSON values, as produced by json.dumps / consumed after json.loads -/

/-- Abstract syntax of the JSON values exchanged through the broker. -/
inductive Json where
  | null : Json
  | bool : Bool → Json
  | num : Int → Json
  | str : String → Json
  | arr : List Json → Json
  | obj : List (String × Json) → Json

/-- One hexadecimal digit, lowercase, as printed by CPython's json encoder. -/
def hexDigit (n : Nat) : Char :=
  if n < 10 then Char.ofNat (48 + n) else Char.ofNat (87 + n)

/-- A \uXXXX escape for a 16-bit code unit. -/
def uEscape (n : Nat) : String :=
  String.mk ['\\', 'u', hexDigit (n / 0x1000 % 16), hexDigit (n / 0x100 % 16),
    hexDigit (n / 16 % 16), hexDigit (n % 16)]

/-- How CPython's `json.dumps` (default `ensure_ascii=True`) renders one
character inside a string literal: short escapes for quote, backslash and
the common controls, `\uXXXX` for other controls and all non-ASCII
characters (with a surrogate pair above U+FFFF). -/
def jsonEscapeChar (c : Char) : String :=
  let n := c.toNat
  if c = '"' then "\\\""
  else if c = '\\' then "\\\\"
  else if c = '\n' then "\\n"
  else if c = '\r' then "\\r"
  else if c = '\t' then "\\t"
  else if n = 8 then "\\b"
  else if n = 12 then "\\f"
  else if n < 0x20 ∨ n > 0x7E then
    if n < 0x10000 then uEscape n
    else uEscape (0xD800 + (n - 0x10000) / 0x400) ++ uEscape (0xDC00 + (n - 0x10000) % 0x400)
  else String.singleton c

/-- A JSON string literal as printed by `json.dumps`. -/
def jsonQuote (s : String) : String :=
  "\"" ++ String.join (s.data.map jsonEscapeChar) ++ "\""

mutual

/-- `json.dumps` with CPython's default separators (", " and ": "). -/
def jsonDumps : Json → String
  | Json.null => "null"
  | Json.bool true => "true"
  | Json.bool false => "false"
  | Json.num n => toString n
  | Json.str s => jsonQuote s
  | Json.arr xs => "[" ++ jsonDumpsList xs ++ "]"
  | Json.obj kvs => "\x7b" ++ jsonDumpsPairs kvs ++ "\x7d"

/-- Comma-separated rendering of array elements. -/
def jsonDumpsList : List Json → String
  | [] => ""
  | [x] => jsonDumps x
  | x :: y :: xs => jsonDumps x ++ ", " ++ jsonDumpsList (y :: xs)

/-- Comma-separated rendering of object members. -/
def jsonDumpsPairs : List (String × Json) → String
  | [] => ""
  | [(k, v)] => jsonQuote k ++ ": " ++ jsonDumps v
  | (k, v) :: p :: kvs => jsonQuote k ++ ": " ++ jsonDumps v ++ ", " ++ jsonDumpsPairs (p :: kvs)

end

/-! ## Event producer (app/rabbitmq/producer.py) -/

/-- aio_pika delivery modes; `publish_user_event` always uses
`DeliveryMode.PERSISTENT`. -/
inductive DeliveryMode where
  | persistent : DeliveryMode
  | transient : DeliveryMode
deriving DecidableEq

/-- The observable content of one `exchange.publish` call on the
`user_events` topic exchange. -/
structure PublishedMessage where
  body : String
  delivery_mode : DeliveryMode
  content_type : String
  routing_key : String
deriving DecidableEq

/-- Where, if anywhere, the broker interaction of `publish_user_event`
raises: the `await get_channel()` (connection), the
`channel.declare_exchange` or the `exchange.publish` call. -/
inductive FailPoint where
  | ok : FailPoint
  | connectError : FailPoint
  | declareError : FailPoint
  | publishError : FailPoint
deriving DecidableEq

/-- The `message_data` dict built by `publish_user_event`:
event_type, data, and the trace_id read from the ambient structlog
context (`ctx`), defaulting to the literal "unknown" when none is bound. -/
def buildEnvelope (event_type : String) (data : List (String × Json))
    (ctx : Option String) : Json :=
  Json.obj [("event_type", Json.str event_type), ("data", Json.obj data),
    ("trace_id", Json.str (match ctx with | some t => t | none => "unknown"))]

/-- The body of the try-block of `publish_user_event` (producer.py 88-121):
get channel, declare the exchange, build and publish the message. Each
broker await can raise, which the explicit failure point models. -/
def publishAttempt (f : FailPoint) (ctx : Option String) (event_type : String)
    (data : List (String × Json)) : Except String PublishedMessage :=
  match f with
  | FailPoint.connectError => Except.error "connect failed"
  | FailPoint.declareError => Except.error "declare_exchange failed"
  | FailPoint.publishError => Except.error "publish failed"
  | FailPoint.ok =>
      Except.ok
        { body := jsonDumps (buildEnvelope event_type data ctx)
          delivery_mode := DeliveryMode.persistent
          content_type := "application/json"
          routing_key := event_type }

/-- `publish_user_event` (producer.py 63-127): the whole broker interaction
sits in `try: ... except Exception as e: print(...)`, so the function never
raises; on any failure nothing is published and the caller observes a
normal return. -/
def publish_user_event (f : FailPoint) (ctx : Option String) (event_type : String)
    (data : List (String × Json)) : Option PublishedMessage :=
  match publishAttempt f ctx event_type data with
  | Except.ok m => some m
  | Except.error _ => none

/-! ## Data model (app/models/user.py, app/models/schemas.py) -/

/-- One row of the `user` table: BIGINT id, three NOT-NULL text columns and
the two timestamp columns (abstract clock readings, modelled as naturals;
`created_at` is set by `server_default=func.now()` on insert and
`updated_at` additionally by `onupdate=func.now()` on every UPDATE). -/
structure StoredUser where
  id : Nat
  name : String
  surname : String
  password : String
  created_at : Nat
  updated_at : Nat
deriving DecidableEq

/-- `UserResponse` (schemas.py 41-52): every column except `password`. -/
structure UserResponse where
  id : Nat
  name : String
  surname : String
  created_at : Nat
  updated_at : Nat
deriving DecidableEq

/-- `UserListResponse` (schemas.py 55-65). -/
structure UserListResponse where
  users : List UserResponse
  total : Nat
  page : Nat
  per_page : Nat
deriving DecidableEq

/-- `UserCreate` (schemas.py 17-26): all three fields required. -/
structure UserCreate where
  name : String
  surname : String
  password : String
deriving DecidableEq

/-- `UserUpdate` (schemas.py 29-38): all three fields optional. -/
structure UserUpdate where
  name : Option String
  surname : Option String
  password : Option String
deriving DecidableEq

/-- The `user` table, as a list of rows in insertion order. -/
abbrev UserStore := List StoredUser

/-- The conversion performed identically in every route handler:
`UserResponse(id=..., name=..., surname=..., created_at=..., updated_at=...)`.
The `password` column is never copied into a response. -/
def toUserResponse (u : StoredUser) : UserResponse :=
  { id := u.id, name := u.name, surname := u.surname
    created_at := u.created_at, updated_at := u.updated_at }

/-- The comparison of `ORDER BY user.id` on rows. -/
def userLe (a b : StoredUser) : Bool := a.id ≤ b.id

/-- The same comparison on response objects (used to relate the sort on
rows to a sort on their public projections). -/
def respLe (a b : UserResponse) : Bool := a.id ≤ b.id

/-- `ORDER BY user.id` applied by the database to the selected rows. -/
def orderById (l : UserStore) : UserStore := l.mergeSort userLe

/-- Result of a route handler: the serialized value, or an
`HTTPException(status_code, detail)`. -/
inductive ApiResult (α : Type) where
  | ok : α → ApiResult α
  | httpError : Nat → String → ApiResult α
deriving DecidableEq

/-- `UserController.get_users` (users.py 48-102): computes
`offset = (page - 1) * per_page`, counts all rows for `total`
(independently of the page window), fetches the page with
ORDER BY id / OFFSET / LIMIT, and converts each row to a `UserResponse`.
Litestar validates `page ≥ 1` and `1 ≤ per_page ≤ 100` before the handler
runs; no error is raised for an out-of-range page. -/
def get_users (store : UserStore) (page per_page : Nat) : UserListResponse :=
  let offset := (page - 1) * per_page
  let total := store.length
  let users := ((orderById store).drop offset).take per_page
  { users := users.map toUserResponse, total := total, page := page, per_page := per_page }

/-- `UserController.get_user` (users.py 104-139): select by primary key
(`scalar_one_or_none`), 404 with a descriptive detail when absent. -/
def get_user (store : UserStore) (user_id : Nat) : ApiResult UserResponse :=
  match store.find? (fun u => u.id == user_id) with
  | none => ApiResult.httpError 404 ("User with id " ++ toString user_id ++ " not found")
  | some u => ApiResult.ok (toUserResponse u)

/-- `UserController.create_user` (users.py 141-186): insert the row (the
database assigns `newId` and sets both timestamps to the insert moment
`now`), commit, then publish `user.created`; the publish outcome is
returned alongside so its (non-)effect on the response can be stated. -/
def create_user (store : UserStore) (data : UserCreate) (newId now : Nat)
    (ctx : Option String) (f : FailPoint) :
    UserStore × UserResponse × Option PublishedMessage :=
  let u : StoredUser :=
    { id := newId, name := data.name, surname := data.surname
      password := data.password, created_at := now, updated_at := now }
  let store1 := store ++ [u]
  let pub := publish_user_event f ctx "user.created" [("user_id", Json.num (Int.ofNat u.id))]
  (store1, toUserResponse u, pub)

/-- The three conditional field assignments of `update_user`
(users.py 222-228): only fields present in the patch overwrite. -/
def applyPatch (u : StoredUser) (data : UserUpdate) : StoredUser :=
  let u1 := match data.name with | some n => { u with name := n } | none => u
  let u2 := match data.surname with | some s => { u1 with surname := s } | none => u1
  match data.password with | some p => { u2 with password := p } | none => u2

/-- `session.commit()` after the assignments: SQLAlchemy's unit of work
emits an UPDATE only when some attribute has a net change (assigning a
value equal to the committed one, or assigning nothing, leaves the object
clean and flushes nothing); only then does `onupdate=func.now()` refresh
`updated_at` to the commit moment `now`. -/
def commitUpdate (u u1 : StoredUser) (now : Nat) : StoredUser :=
  if u1 = u then u else { u1 with updated_at := now }

/-- `UserController.update_user` (users.py 188-243): find the row or 404,
apply the partial patch, commit (refreshing `updated_at` only on a net
change), publish `user.updated`, and return the refreshed row. -/
def update_user (store : UserStore) (user_id : Nat) (data : UserUpdate) (now : Nat)
    (ctx : Option String) (f : FailPoint) :
    ApiResult (UserStore × UserResponse × Option PublishedMessage) :=
  match store.find? (fun u => u.id == user_id) with
  | none => ApiResult.httpError 404 ("User with id " ++ toString user_id ++ " not found")
  | some u =>
      let u1 := commitUpdate u (applyPatch u data) now
      let store1 := store.map (fun v => if v.id == user_id then u1 else v)
      let pub := publish_user_event f ctx "user.updated" [("user_id", Json.num (Int.ofNat u1.id))]
      ApiResult.ok (store1, toUserResponse u1, pub)

/-- `UserController.delete_user` (users.py 245-285): find the row or 404,
DELETE it by primary key, commit, publish `user.deleted`, and return the
confirmation message. -/
def delete_user (store : UserStore) (user_id : Nat)
    (ctx : Option String) (f : FailPoint) :
    ApiResult (UserStore × String × Option PublishedMessage) :=
  match store.find? (fun u => u.id == user_id) with
  | none => ApiResult.httpError 404 ("User with id " ++ toString user_id ++ " not found")
  | some u =>
      let store1 := store.filter (fun v => v.id != user_id)
      let pub := publish_user_event f ctx "user.deleted" [("user_id", Json.num (Int.ofNat u.id))]
      ApiResult.ok (store1, "User with id " ++ toString user_id ++ " has been deleted", pub)

/-- What the HTTP client and the database observe of an update: the result
with the broker part erased. -/
def updateObservable (r : ApiResult (UserStore × UserResponse × Option PublishedMessage)) :
    ApiResult (UserStore × UserResponse) :=
  match r with
  | ApiResult.ok (s, u, _) => ApiResult.ok (s, u)
  | ApiResult.httpError c m => ApiResult.httpError c m

/-- What the HTTP client and the database observe of a delete: the result
with the broker part erased. -/
def deleteObservable (r : ApiResult (UserStore × String × Option PublishedMessage)) :
    ApiResult (UserStore × String) :=
  match r with
  | ApiResult.ok (s, m, _) => ApiResult.ok (s, m)
  | ApiResult.httpError c m => ApiResult.httpError c m

/-! ## Logging middleware (app/middleware/logging.py) -/

/-- A Python bytes object, as a list of byte values. -/
abbrev Bytes := List Nat

/-- Is `b` a UTF-8 continuation byte (10xxxxxx)? -/
def isContByte (b : Nat) : Bool := decide (0x80 ≤ b ∧ b < 0xC0)

/-- Decode the first UTF-8 sequence of a byte list, as CPython's strict
`bytes.decode()` does: rejects stray continuation bytes, overlong
encodings (`0xC0`/`0xC1` leads and too-short multi-byte values),
surrogates and code points beyond U+10FFFF. Returns the character and the
unconsumed remainder; `none` models a raised `UnicodeDecodeError`. -/
def utf8DecodeOne : Bytes → Option (Char × Bytes)
  | [] => none
  | b :: rest =>
    if b < 0x80 then some (Char.ofNat b, rest)
    else if b < 0xC2 then none
    else if b < 0xE0 then
      match rest with
      | b2 :: rest2 =>
        if isContByte b2 then some (Char.ofNat ((b - 0xC0) * 0x40 + (b2 - 0x80)), rest2)
        else none
      | [] => none
    else if b < 0xF0 then
      match rest with
      | b2 :: b3 :: rest3 =>
        if isContByte b2 && isContByte b3 then
          let cp := (b - 0xE0) * 0x1000 + (b2 - 0x80) * 0x40 + (b3 - 0x80)
          if cp < 0x800 then none
          else if 0xD800 ≤ cp ∧ cp < 0xE000 then none
          else some (Char.ofNat cp, rest3)
        else none
      | _ => none
    else if b < 0xF5 then
      match rest with
      | b2 :: b3 :: b4 :: rest4 =>
        if isContByte b2 && isContByte b3 && isContByte b4 then
          let cp := (b - 0xF0) * 0x40000 + (b2 - 0x80) * 0x1000 +
            (b3 - 0x80) * 0x40 + (b4 - 0x80)
          if cp < 0x10000 then none
          else if cp > 0x10FFFF then none
          else some (Char.ofNat cp, rest4)
        else none
      | _ => none
    else none

/-- The decode loop. The fuel argument only makes the recursion structural:
instantiated with the byte count (an upper bound on the number of decoded
characters, as every step consumes at least one byte) it never runs out. -/
def utf8DecodeGo : Nat → Bytes → Option (List Char)
  | _, [] => some []
  | 0, _ :: _ => none
  | n + 1, b :: rest =>
    match utf8DecodeOne (b :: rest) with
    | none => none
    | some (c, rest2) =>
      match utf8DecodeGo n rest2 with
      | some cs => some (c :: cs)
      | none => none

/-- Strict UTF-8 decoding of a whole byte list into characters. -/
def utf8DecodeChars (bs : Bytes) : Option (List Char) := utf8DecodeGo bs.length bs

/-- `bytes.decode()` producing a Python str, or `none` for a raised
`UnicodeDecodeError`. -/
def utf8Decode (bs : Bytes) : Option String :=
  (utf8DecodeChars bs).map (fun cs => String.mk cs)

/-- UTF-8 encoding of one character, as `str.encode()` emits it. -/
def utf8EncodeChar (c : Char) : Bytes :=
  let n := c.toNat
  if n < 0x80 then [n]
  else if n < 0x800 then [0xC0 + n / 0x40, 0x80 + n % 0x40]
  else if n < 0x10000 then [0xE0 + n / 0x1000, 0x80 + (n / 0x40) % 0x40, 0x80 + n % 0x40]
  else [0xF0 + n / 0x40000, 0x80 + (n / 0x1000) % 0x40, 0x80 + (n / 0x40) % 0x40, 0x80 + n % 0x40]

/-- `str.encode()`: UTF-8 bytes of a string. -/
def utf8Encode (s : String) : Bytes := s.data.flatMap utf8EncodeChar

/-- Lookup in `dict(pairs)` as Python builds it from the ASGI header list:
when a key occurs several times, the last pair wins. -/
def dictGet (pairs : List (Bytes × Bytes)) (k : Bytes) : Option Bytes :=
  match pairs with
  | [] => none
  | (k1, v1) :: rest =>
    match dictGet rest k with
    | some v => some v
    | none => if k1 = k then some v1 else none

/-- The byte string `b"x-request-id"` that the middleware looks up (ASGI
servers hand header names over lowercased). -/
def xRequestIdKey : Bytes := utf8Encode "x-request-id"

/-- `LoggingMiddleware._get_trace_id_from_headers` (logging.py 194-218):
take the `X-Request-Id` value verbatim when it is present, non-empty
(Python truthiness of bytes) and decodable; otherwise use a fresh
`str(uuid.uuid4())`, which the parameter `freshUuid` stands for. -/
def get_trace_id_from_headers (headers : List (Bytes × Bytes)) (freshUuid : String) : String :=
  match dictGet headers xRequestIdKey with
  | some v =>
    if v = [] then freshUuid
    else
      match utf8Decode v with
      | some s => s
      | none => freshUuid
  | none => freshUuid

/-- An ASGI `http.response.start` message: status and header list. -/
structure ResponseStart where
  status : Nat
  headers : List (Bytes × Bytes)
deriving DecidableEq

/-- What `logging_send` (logging.py 135-159) does to an
`http.response.start` message: append `[b"X-Trace-Id", trace_id.encode()]`
to whatever headers the handler already set. -/
def addTraceHeader (trace_id : String) (m : ResponseStart) : ResponseStart :=
  { status := m.status, headers := m.headers ++ [(utf8Encode "X-Trace-Id", utf8Encode trace_id)] }

/-! ## Event consumer (app/rabbitmq/consumer.py) -/

/-- Broker-side fate of a delivered message after the handler returns:
aio_pika's `ProcessContext.__aexit__` acknowledges on a clean exit of the
`async with message.process():` body and rejects only when an exception
escapes that body. -/
inductive MsgFate where
  | acked : MsgFate
  | rejected : MsgFate
deriving DecidableEq

/-- Which of the four log statements of the dispatch ran, and with which
`user_id` value (`data.get("user_id")`, which may be absent). -/
inductive ConsumeLog where
  | created : Option Json → ConsumeLog
  | updated : Option Json → ConsumeLog
  | deleted : Option Json → ConsumeLog
  | unknown : Option Json → ConsumeLog

/-- Python `d.get(key)` on a decoded JSON value: a lookup when the value is
a dict, a raised `AttributeError` otherwise. -/
def pyDictGet (j : Json) (k : String) : Except String (Option Json) :=
  match j with
  | Json.obj kvs => Except.ok ((kvs.find? (fun p => p.1 == k)).map (fun p => p.2))
  | _ => Except.error "AttributeError: get"

/-- The try-block of `user_event_handler` (consumer.py 89-121). `decoded`
is the outcome of `json.loads(message.body.decode())` — `none` models a
raised decode error on a body that is not valid JSON — and `message_id`
models `message.message_id`. On success it returns the value bound as
`trace_id` and the log statement that ran. -/
def handlerTryBlock (decoded : Option Json) (message_id : Option String) :
    Except String (Json × ConsumeLog) := do
  match decoded with
  | none => Except.error "json.loads: Expecting value"
  | some md =>
      let event_type ← pyDictGet md "event_type"
      let dataOpt ← pyDictGet md "data"
      let data := match dataOpt with | some d => d | none => Json.obj []
      let traceDefault := match message_id with
        | some s => if s = "" then "unknown" else s
        | none => "unknown"
      let traceOpt ← pyDictGet md "trace_id"
      let trace_id := match traceOpt with | some t => t | none => Json.str traceDefault
      match event_type with
      | some (Json.str "user.created") =>
          let uid ← pyDictGet data "user_id"
          Except.ok (trace_id, ConsumeLog.created uid)
      | some (Json.str "user.updated") =>
          let uid ← pyDictGet data "user_id"
          Except.ok (trace_id, ConsumeLog.updated uid)
      | some (Json.str "user.deleted") =>
          let uid ← pyDictGet data "user_id"
          Except.ok (trace_id, ConsumeLog.deleted uid)
      | et => Except.ok (trace_id, ConsumeLog.unknown et)

/-- `user_event_handler` (consumer.py 67-125) composed with
`message.process()`: the try-block runs inside
`except Exception: logger.error(...)`, which swallows every exception, so
the `async with` body always exits cleanly; `ProcessContext` then
acknowledges. Returns the fate of the message together with the bound
trace value and log statement when the try-block succeeded. -/
def user_event_handler (decoded : Option Json) (message_id : Option String) :
    MsgFate × Option (Json × ConsumeLog) :=
  let bodyOutcome : Except String (Option (Json × ConsumeLog)) :=
    match handlerTryBlock decoded message_id with
    | Except.ok r => Except.ok (some r)
    | Except.error _ => Except.ok none
  match bodyOutcome with
  | Except.ok r => (MsgFate.acked, r)
  | Except.error _ => (MsgFate.rejected, none)

/-- A broker channel or connection handle with its `is_closed` flag. -/
structure BrokerHandle where
  is_closed : Bool
deriving DecidableEq

/-- The three module-level globals of consumer.py: `_consumer_task`,
`_channel`, `_connection`. -/
structure ConsumerState where
  consumer_task : Option Unit
  channel : Option BrokerHandle
  connection : Option BrokerHandle
deriving DecidableEq

/-- The awaited side effects of `stop_consumer`, in program order. -/
inductive StopAction where
  | cancelTask : StopAction
  | awaitTask : StopAction
  | closeChannel : StopAction
  | closeConnection : StopAction
deriving DecidableEq

/-- The globals as module import leaves them (consumer never started). -/
def neverStartedState : ConsumerState :=
  { consumer_task := none, channel := none, connection := none }

/-- The globals after a successful `start_consumer` (consumer.py 128-174):
a running delivery task on an open channel over an open connection. -/
def startedState : ConsumerState :=
  { consumer_task := some (), channel := some { is_closed := false },
    connection := some { is_closed := false } }

/-- `stop_consumer` (consumer.py 177-210): cancel and await the task if
there is one, then close the channel if present and open, then close the
connection if present and open; returns the new globals and the actions
performed in order. -/
def stop_consumer (s : ConsumerState) : ConsumerState × List StopAction :=
  let taskStep : Option Unit × List StopAction :=
    match s.consumer_task with
    | some _ => (none, [StopAction.cancelTask, StopAction.awaitTask])
    | none => (s.consumer_task, [])
  let channelStep : Option BrokerHandle × List StopAction :=
    match s.channel with
    | some c => if c.is_closed then (s.channel, []) else (none, [StopAction.closeChannel])
    | none => (s.channel, [])
  let connectionStep : Option BrokerHandle × List StopAction :=
    match s.connection with
    | some c => if c.is_closed then (s.connection, []) else (none, [StopAction.closeConnection])
    | none => (s.connection, [])
  ({ consumer_task := taskStep.1, channel := channelStep.1, connection := connectionStep.1 },
    taskStep.2 ++ channelStep.2 ++ connectionStep.2)

/-! ## Theorems -/

/-- C1: the claim states that a delivered message whose decode or dispatch
raises (e.g. a body that is not valid JSON) is left unacknowledged for
broker-side redelivery, acknowledgment happening only on success. The code
does the opposite: the `try/except Exception` sits *inside*
`async with message.process():` and swallows every exception, so the
with-body always exits cleanly and `ProcessContext.__aexit__` acknowledges
the message unconditionally — also on a decode failure (`decoded = none`,
e.g. body `b"not json"`). This contradicts the handler's own docstring
("messages are not lost if processing fails") and the inline comment
("Message will not be acknowledged, allowing retry or dead lettering"). -/
theorem C1_decode_failure_still_acked :
    (user_event_handler none none).1 = MsgFate.acked ∧
    ∀ decoded message_id, (user_event_handler decoded message_id).1 = MsgFate.acked := by
  refine ⟨rfl, ?_⟩
  intro d m
  unfold user_event_handler
  cases handlerTryBlock d m <;> rfl

/-- C2: every failure point inside `publish_user_event` (connection,
exchange declaration, publish) is caught by its try/except — nothing is
published and the function returns normally — and for each of the three
mutations the HTTP response and the committed store are identical to the
success case (in the code the commit precedes the publish call, and the
route handlers use the publish result for nothing). -/
theorem C2_publish_failure_invisible :
    (∀ ctx et d, publish_user_event FailPoint.connectError ctx et d = none ∧
      publish_user_event FailPoint.declareError ctx et d = none ∧
      publish_user_event FailPoint.publishError ctx et d = none) ∧
    (∀ store data newId now ctx f,
      (create_user store data newId now ctx f).1 =
        (create_user store data newId now ctx FailPoint.ok).1 ∧
      (create_user store data newId now ctx f).2.1 =
        (create_user store data newId now ctx FailPoint.ok).2.1) ∧
    (∀ store uid p now ctx f,
      updateObservable (update_user store uid p now ctx f) =
        updateObservable (update_user store uid p now ctx FailPoint.ok)) ∧
    (∀ store uid ctx f,
      deleteObservable (delete_user store uid ctx f) =
        deleteObservable (delete_user store uid ctx FailPoint.ok)) := by
  refine ⟨fun ctx et d => ⟨rfl, rfl, rfl⟩, fun store data newId now ctx f => ⟨rfl, rfl⟩, ?_, ?_⟩
  · intro store uid p now ctx f
    unfold update_user updateObservable
    cases store.find? (fun u => u.id == uid) <;> rfl
  · intro store uid ctx f
    unfold delete_user deleteObservable
    cases store.find? (fun u => u.id == uid) <;> rfl

/-- C8: on the success path, `publish_user_event eventType data` publishes
exactly the JSON encoding of the envelope
(event_type ↦ eventType, data ↦ data, trace_id ↦ t) — t being the bound
trace id of the ambient context, or the literal "unknown" when none is
bound — with routing key equal to eventType, persistent delivery mode and
content type application/json. -/
theorem C8_publish_envelope (et t : String) (data : List (String × Json)) :
    publish_user_event FailPoint.ok (some t) et data =
      some { body := jsonDumps (buildEnvelope et data (some t)),
             delivery_mode := DeliveryMode.persistent,
             content_type := "application/json", routing_key := et } ∧
    buildEnvelope et data (some t) =
      Json.obj [("event_type", Json.str et), ("data", Json.obj data),
        ("trace_id", Json.str t)] ∧
    publish_user_event FailPoint.ok none et data =
      some { body := jsonDumps (buildEnvelope et data none),
             delivery_mode := DeliveryMode.persistent,
             content_type := "application/json", routing_key := et } ∧
    buildEnvelope et data none =
      Json.obj [("event_type", Json.str et), ("data", Json.obj data),
        ("trace_id", Json.str "unknown")] :=
  ⟨rfl, rfl, rfl, rfl⟩

/-- C9: `stop_consumer` is safe and idempotent in every state: on the
never-started globals it performs no action and leaves them unchanged;
after `start_consumer` it cancels the delivery task and awaits the
cancellation before closing first the channel and then the connection,
ending in the stopped globals; and a second consecutive call performs no
action and leaves the post-stop state unchanged, whatever the state the
first call ran from. -/
theorem C9_stop_consumer_safe :
    stop_consumer neverStartedState = (neverStartedState, []) ∧
    stop_consumer startedState =
      (neverStartedState,
        [StopAction.cancelTask, StopAction.awaitTask,
         StopAction.closeChannel, StopAction.closeConnection]) ∧
    ∀ s : ConsumerState, stop_consumer (stop_consumer s).1 = ((stop_consumer s).1, []) := by
  refine ⟨rfl, rfl, ?_⟩
  intro s
  rcases s with ⟨_ | _, _ | ⟨_ | _⟩, _ | ⟨_ | _⟩⟩ <;> rfl

/-- The partial patch never touches the identifier. -/
theorem applyPatch_id (u : StoredUser) (p : UserUpdate) : (applyPatch u p).id = u.id := by
  rcases p with ⟨n, s, pw⟩
  cases n <;> cases s <;> cases pw <;> rfl

/-- The partial patch never touches the creation timestamp. -/
theorem applyPatch_created_at (u : StoredUser) (p : UserUpdate) :
    (applyPatch u p).created_at = u.created_at := by
  rcases p with ⟨n, s, pw⟩
  cases n <;> cases s <;> cases pw <;> rfl

/-- The partial patch never touches the last-modified timestamp (only the
commit does, through `onupdate`). -/
theorem applyPatch_updated_at (u : StoredUser) (p : UserUpdate) :
    (applyPatch u p).updated_at = u.updated_at := by
  rcases p with ⟨n, s, pw⟩
  cases n <;> cases s <;> cases pw <;> rfl

/-- A name absent from the patch keeps its value. -/
theorem applyPatch_name (u : StoredUser) (p : UserUpdate) (h : p.name = none) :
    (applyPatch u p).name = u.name := by
  rcases p with ⟨n, s, pw⟩
  cases h
  cases s <;> cases pw <;> rfl

/-- A surname absent from the patch keeps its value. -/
theorem applyPatch_surname (u : StoredUser) (p : UserUpdate) (h : p.surname = none) :
    (applyPatch u p).surname = u.surname := by
  rcases p with ⟨n, s, pw⟩
  cases h
  cases n <;> cases pw <;> rfl

/-- A password absent from the patch keeps its value. -/
theorem applyPatch_password (u : StoredUser) (p : UserUpdate) (h : p.password = none) :
    (applyPatch u p).password = u.password := by
  rcases p with ⟨n, s, pw⟩
  cases h
  cases n <;> cases s <;> rfl

/-- C4 counterexample: the claim asserts that for *every* patch, including
the empty one, the last-modified timestamp strictly increases. Updating
the user (id 1, updated_at 5) with the empty patch at clock 10 leaves
updated_at at 5: no field is assigned, SQLAlchemy's unit of work finds no
net change, flushes no UPDATE, and `onupdate=func.now()` never fires. -/
theorem C4_counterexample :
    (match update_user
        [{ id := 1, name := "John", surname := "Doe", password := "pw",
           created_at := 0, updated_at := 5 }] 1
        { name := none, surname := none, password := none } 10 none FailPoint.ok with
     | ApiResult.ok r => r.2.1.updated_at
     | ApiResult.httpError _ _ => 0) = 5 ∧ ¬ (5 > 5) :=
  ⟨rfl, by decide⟩

/-- C4 (amended): for every update of an existing user, fields absent from
the patch keep exactly their pre-update values and the identifier and
creation timestamp never change; the last-modified timestamp is refreshed
to the (strictly later) commit clock exactly when the patch makes a net
change to at least one field, and an update whose patch changes nothing —
in particular the empty patch — leaves the row, including the
last-modified timestamp, unchanged. -/
theorem C4_update_frame (store : UserStore) (uid : Nat) (p : UserUpdate) (now : Nat)
    (ctx : Option String) (f : FailPoint) (u : StoredUser)
    (hfind : store.find? (fun v => v.id == uid) = some u)
    (hnow : u.updated_at < now) :
    update_user store uid p now ctx f =
      ApiResult.ok
        (store.map (fun v => if v.id == uid then commitUpdate u (applyPatch u p) now else v),
         toUserResponse (commitUpdate u (applyPatch u p) now),
         publish_user_event f ctx "user.updated"
           [("user_id", Json.num (Int.ofNat (commitUpdate u (applyPatch u p) now).id))]) ∧
    (commitUpdate u (applyPatch u p) now).id = u.id ∧
    (commitUpdate u (applyPatch u p) now).created_at = u.created_at ∧
    (p.name = none → (commitUpdate u (applyPatch u p) now).name = u.name) ∧
    (p.surname = none → (commitUpdate u (applyPatch u p) now).surname = u.surname) ∧
    (p.password = none → (commitUpdate u (applyPatch u p) now).password = u.password) ∧
    (applyPatch u p ≠ u →
      (commitUpdate u (applyPatch u p) now).updated_at = now ∧
      u.updated_at < (commitUpdate u (applyPatch u p) now).updated_at) ∧
    (applyPatch u p = u → commitUpdate u (applyPatch u p) now = u) := by
  refine ⟨?_, ?_, ?_, ?_, ?_, ?_, ?_, ?_⟩
  · unfold update_user
    rw [hfind]
  · unfold commitUpdate
    split
    · rfl
    · exact applyPatch_id u p
  · unfold commitUpdate
    split
    · rfl
    · exact applyPatch_created_at u p
  · intro h
    unfold commitUpdate
    split
    · rfl
    · exact applyPatch_name u p h
  · intro h
    unfold commitUpdate
    split
    · rfl
    · exact applyPatch_surname u p h
  · intro h
    unfold commitUpdate
    split
    · rfl
    · exact applyPatch_password u p h
  · intro h
    unfold commitUpdate
    rw [if_neg h]
    exact ⟨rfl, hnow⟩
  · intro h
    unfold commitUpdate
    rw [if_pos h]

/-- The row and patch of the C4 witness run. -/
def c4User : StoredUser :=
  { id := 1, name := "John", surname := "Doe", password := "pw",
    created_at := 0, updated_at := 5 }

/-- Patch supplying only a (new) name. -/
def c4Patch : UserUpdate :=
  { name := some "Jane", surname := none, password := none }

/-- C4 witness: concrete run of the amended frame theorem — patching only
the name of user 1 at clock 10 keeps surname, password and created_at,
and refreshes updated_at from 5 to 10. -/
theorem C4_witness :
    ([c4User].find? (fun v => v.id == 1) = some c4User) ∧
    (5 : Nat) < 10 ∧
    (commitUpdate c4User (applyPatch c4User c4Patch) 10).surname = "Doe" ∧
    (commitUpdate c4User (applyPatch c4User c4Patch) 10).updated_at = 10 :=
  ⟨rfl, by decide,
    (C4_update_frame [c4User] 1 c4Patch 10 none FailPoint.ok c4User rfl
      (by decide)).2.2.2.2.1 rfl,
    ((C4_update_frame [c4User] 1 c4Patch 10 none FailPoint.ok c4User rfl
      (by decide)).2.2.2.2.2.2.1 (by decide)).1⟩

/-- After the DELETE, no row with the deleted id is found any more. -/
theorem find_after_filter (store : UserStore) (uid : Nat) :
    (store.filter (fun v => v.id != uid)).find? (fun v => v.id == uid) = none := by
  rw [List.find?_eq_none]
  intro x hx
  have hmem := (List.mem_filter.mp hx).2
  simp only [bne_iff_ne, ne_eq] at hmem
  simp only [beq_iff_eq]
  exact hmem

/-- Every user of a listed page is a row of the store the page was drawn
from. -/
theorem mem_store_of_mem_page (store : UserStore) (page k : Nat) (r : UserResponse)
    (hr : r ∈ (get_users store page k).users) :
    ∃ w ∈ store, toUserResponse w = r := by
  unfold get_users at hr
  simp only [List.mem_map] at hr
  obtain ⟨w, hw, hwr⟩ := hr
  refine ⟨w, ?_, hwr⟩
  have h1 : w ∈ (orderById store).drop ((page - 1) * k) := List.mem_of_mem_take hw
  have h2 : w ∈ orderById store := List.mem_of_mem_drop h1
  exact List.mem_mergeSort.mp h2

/-- C6: deleting an existing id succeeds once — removing exactly the rows
with that id and returning a confirmation message containing the id — and
afterwards the id behaves as absent everywhere: a second delete returns
404, a get returns 404, and no page of any subsequent listing contains the
id. -/
theorem C6_delete_idempotent (store : UserStore) (uid : Nat) (ctx : Option String)
    (f : FailPoint) (u : StoredUser)
    (hfind : store.find? (fun v => v.id == uid) = some u) :
    delete_user store uid ctx f =
      ApiResult.ok (store.filter (fun v => v.id != uid),
        "User with id " ++ toString uid ++ " has been deleted",
        publish_user_event f ctx "user.deleted" [("user_id", Json.num (Int.ofNat u.id))]) ∧
    (∃ pre suf, "User with id " ++ toString uid ++ " has been deleted" =
      pre ++ toString uid ++ suf) ∧
    delete_user (store.filter (fun v => v.id != uid)) uid ctx f =
      ApiResult.httpError 404 ("User with id " ++ toString uid ++ " not found") ∧
    get_user (store.filter (fun v => v.id != uid)) uid =
      ApiResult.httpError 404 ("User with id " ++ toString uid ++ " not found") ∧
    ∀ page k, uid ∉ ((get_users (store.filter (fun v => v.id != uid)) page k).users.map
      UserResponse.id) := by
  refine ⟨?_, ⟨"User with id ", " has been deleted", rfl⟩, ?_, ?_, ?_⟩
  · unfold delete_user
    rw [hfind]
  · unfold delete_user
    rw [find_after_filter]
  · unfold get_user
    rw [find_after_filter]
  · intro page k hmem
    rw [List.mem_map] at hmem
    obtain ⟨r, hr, hid⟩ := hmem
    obtain ⟨w, hw, hwr⟩ := mem_store_of_mem_page _ page k r hr
    have hwid : w.id = uid := by rw [← hid, ← hwr]; rfl
    have := (List.mem_filter.mp hw).2
    simp only [bne_iff_ne, ne_eq] at this
    exact this hwid

/-- The store of the C6 witness run: two rows, ids 5 and 7. -/
def c6Store : UserStore :=
  [{ id := 5, name := "John", surname := "Doe", password := "pw",
     created_at := 0, updated_at := 0 },
   { id := 7, name := "Jane", surname := "Roe", password := "pw2",
     created_at := 1, updated_at := 1 }]

/-- C6 witness: concrete run on the two-row store — deleting id 5 leaves
only id 7 behind, a second delete of 5 is a 404, and page 1 no longer
contains id 5. -/
theorem C6_witness :
    (c6Store.find? (fun v => v.id == 5) =
      some { id := 5, name := "John", surname := "Doe", password := "pw",
             created_at := 0, updated_at := 0 }) ∧
    delete_user (c6Store.filter (fun v => v.id != 5)) 5 none FailPoint.ok =
      ApiResult.httpError 404 ("User with id " ++ toString 5 ++ " not found") ∧
    (5 : Nat) ∉ ((get_users (c6Store.filter (fun v => v.id != 5)) 1 10).users.map
      UserResponse.id) :=
  ⟨rfl,
    (C6_delete_idempotent c6Store 5 none FailPoint.ok
      { id := 5, name := "John", surname := "Doe", password := "pw",
        created_at := 0, updated_at := 0 } rfl).2.2.1,
    (C6_delete_idempotent c6Store 5 none FailPoint.ok
      { id := 5, name := "John", surname := "Doe", password := "pw",
        created_at := 0, updated_at := 0 } rfl).2.2.2.2 1 10⟩

/-- Two stores with identical public projections agree, up to the public
projection, on every primary-key lookup. -/
theorem find_congr_public (uid : Nat) :
    ∀ (s1 s2 : UserStore), s1.map toUserResponse = s2.map toUserResponse →
      (s1.find? (fun u => u.id == uid)).map toUserResponse =
        (s2.find? (fun u => u.id == uid)).map toUserResponse := by
  intro s1
  induction s1 with
  | nil =>
    intro s2 h
    cases s2 with
    | nil => rfl
    | cons b t => simp at h
  | cons a t ih =>
    intro s2 h
    cases s2 with
    | nil => simp at h
    | cons b t2 =>
      simp only [List.map_cons, List.cons.injEq] at h
      obtain ⟨hab, ht⟩ := h
      have hid : a.id = b.id := congrArg UserResponse.id hab
      cases hpa : (a.id == uid) with
      | true =>
        have hpb : (b.id == uid) = true := by rw [← hid]; exact hpa
        simp only [List.find?_cons, hpa, hpb, Option.map_some]
        exact congrArg some hab
      | false =>
        have hpb : (b.id == uid) = false := by rw [← hid]; exact hpa
        simp only [List.find?_cons, hpa, hpb]
        exact ih t2 ht

/-- Sorting rows by id and then projecting out the password is the same as
projecting first and sorting the projections by id. -/
theorem orderById_map (l : UserStore) :
    (orderById l).map toUserResponse = (l.map toUserResponse).mergeSort respLe :=
  List.map_mergeSort (fun _ _ _ _ => rfl)

/-- C7: no route response carries the password column, and the responses of
get and list are a function of the public projection of the store alone:
two stores that agree on everything but passwords are indistinguishable
through get and list, the public projection itself ignores the password,
and create's response is unchanged when the request supplies a different
password. -/
theorem C7_password_noninterference (s1 s2 : UserStore)
    (hpub : s1.map toUserResponse = s2.map toUserResponse) :
    (∀ uid, get_user s1 uid = get_user s2 uid) ∧
    (∀ page k, get_users s1 page k = get_users s2 page k) ∧
    (∀ u pw, toUserResponse { u with password := pw } = toUserResponse u) ∧
    (∀ store d pw nid now ctx f,
      (create_user store { d with password := pw } nid now ctx f).2.1 =
        (create_user store d nid now ctx f).2.1) := by
  refine ⟨?_, ?_, fun u pw => rfl, fun store d pw nid now ctx f => rfl⟩
  · intro uid
    have h := find_congr_public uid s1 s2 hpub
    unfold get_user
    cases h1 : s1.find? (fun u => u.id == uid) with
    | none =>
      cases h2 : s2.find? (fun u => u.id == uid) with
      | none => rfl
      | some b => rw [h1, h2] at h; simp at h
    | some a =>
      cases h2 : s2.find? (fun u => u.id == uid) with
      | none => rw [h1, h2] at h; simp at h
      | some b =>
        rw [h1, h2] at h
        simp at h
        exact congrArg ApiResult.ok h
  · intro page k
    have hlen : s1.length = s2.length := by simpa using congrArg List.length hpub
    have husers :
        (((orderById s1).drop ((page - 1) * k)).take k).map toUserResponse =
          (((orderById s2).drop ((page - 1) * k)).take k).map toUserResponse := by
      rw [List.map_take, List.map_take, List.map_drop, List.map_drop,
        orderById_map, orderById_map, hpub]
    show UserListResponse.mk
        ((((orderById s1).drop ((page - 1) * k)).take k).map toUserResponse)
        s1.length page k =
      UserListResponse.mk
        ((((orderById s2).drop ((page - 1) * k)).take k).map toUserResponse)
        s2.length page k
    rw [husers, hlen]

/-- The stores of the C7 witness run: identical except for the password
column. -/
def c7Store1 : UserStore :=
  [{ id := 1, name := "John", surname := "Doe", password := "secret1",
     created_at := 0, updated_at := 0 }]

/-- Same public data as `c7Store1`, different password. -/
def c7Store2 : UserStore :=
  [{ id := 1, name := "John", surname := "Doe", password := "hunter2",
     created_at := 0, updated_at := 0 }]

/-- C7 witness: the two concrete stores differing only in the password
column are indistinguishable through get and list. -/
theorem C7_witness :
    c7Store1.map toUserResponse = c7Store2.map toUserResponse ∧
    get_user c7Store1 1 = get_user c7Store2 1 ∧
    get_users c7Store1 1 10 = get_users c7Store2 1 10 :=
  ⟨rfl, (C7_password_noninterference c7Store1 c7Store2 rfl).1 1,
    (C7_password_noninterference c7Store1 c7Store2 rfl).2.1 1 10⟩

/-- Every character encodes to at least one byte. -/
theorem utf8EncodeChar_ne_nil (c : Char) : utf8EncodeChar c ≠ [] := by
  simp only [utf8EncodeChar]
  split_ifs <;> simp

/-- `str.encode()` of a non-empty string is non-empty (so passes Python's
truthiness test on bytes). -/
theorem utf8Encode_ne_nil (s : String) (h : s ≠ "") : utf8Encode s ≠ [] := by
  unfold utf8Encode
  cases hd : s.data with
  | nil =>
    exact absurd (String.ext (hd.trans rfl)) h
  | cons c cs =>
    rw [List.flatMap_cons]
    intro hcontra
    exact utf8EncodeChar_ne_nil c (List.append_eq_nil.mp hcontra).1

/-- An ASCII character encodes to its single code-point byte. -/
theorem utf8EncodeChar_ascii (c : Char) (h : c.toNat < 0x80) :
    utf8EncodeChar c = [c.toNat] := by
  unfold utf8EncodeChar
  simp only [h, if_pos]

/-- Step equation of the decode loop on a non-empty byte list. -/
theorem utf8DecodeGo_succ_cons (n b : Nat) (rest : Bytes) :
    utf8DecodeGo (n + 1) (b :: rest) =
      match utf8DecodeOne (b :: rest) with
      | none => none
      | some (c, rest2) =>
        match utf8DecodeGo n rest2 with
        | some cs => some (c :: cs)
        | none => none := rfl

/-- An ASCII lead byte decodes to its own code point, consuming one byte. -/
theorem utf8DecodeOne_ascii (b : Nat) (rest : Bytes) (h : b < 0x80) :
    utf8DecodeOne (b :: rest) = some (Char.ofNat b, rest) := by
  simp only [utf8DecodeOne]
  rw [if_pos h]

/-- Decoding the encoding of an ASCII character list yields it back, for
any sufficient fuel. -/
theorem utf8DecodeGo_encode_ascii :
    ∀ (cs : List Char) (n : Nat), (cs.flatMap utf8EncodeChar).length ≤ n →
      (∀ c ∈ cs, c.toNat < 0x80) →
      utf8DecodeGo n (cs.flatMap utf8EncodeChar) = some cs := by
  intro cs
  induction cs with
  | nil =>
    intro n _ _
    cases n <;> rfl
  | cons c rest ih =>
    intro n hlen h
    have hc : c.toNat < 0x80 := h c (List.mem_cons_self c rest)
    have hb : (c :: rest).flatMap utf8EncodeChar =
        c.toNat :: rest.flatMap utf8EncodeChar := by
      rw [List.flatMap_cons, utf8EncodeChar_ascii c hc, List.cons_append, List.nil_append]
    rw [hb] at hlen ⊢
    cases n with
    | zero => simp at hlen
    | succ m =>
      have hm : (rest.flatMap utf8EncodeChar).length ≤ m := by
        simp only [List.length_cons] at hlen
        omega
      have hrest := ih m hm (fun x hx => h x (List.mem_cons_of_mem c hx))
      rw [utf8DecodeGo_succ_cons, utf8DecodeOne_ascii c.toNat _ hc]
      dsimp only
      rw [hrest, Char.ofNat_toNat]

/-- `bytes.decode()` inverts `str.encode()` on ASCII strings. -/
theorem utf8Decode_encode_ascii (s : String) (h : ∀ c ∈ s.data, c.toNat < 0x80) :
    utf8Decode (utf8Encode s) = some s := by
  unfold utf8Decode utf8DecodeChars utf8Encode
  rw [utf8DecodeGo_encode_ascii s.data (s.data.flatMap utf8EncodeChar).length
    (Nat.le_refl _) h]
  rfl

/-- C5: for every request whose `X-Request-Id` header carries the UTF-8
bytes of a non-empty ASCII token T, the middleware uses T verbatim as the
trace id (no validation), and appends `X-Trace-Id: T` to the handler's own
response headers without replacing any of them; when the header is absent
the trace id is the freshly generated UUID4 string (the oracle parameter
`freshUuid` standing for `str(uuid.uuid4())`). -/
theorem C5_trace_id_echo (headers : List (Bytes × Bytes)) (freshUuid T : String)
    (hne : T ≠ "") (hascii : ∀ c ∈ T.data, c.toNat < 0x80)
    (hhdr : dictGet headers xRequestIdKey = some (utf8Encode T)) :
    get_trace_id_from_headers headers freshUuid = T ∧
    (∀ m : ResponseStart,
      addTraceHeader (get_trace_id_from_headers headers freshUuid) m =
        { status := m.status,
          headers := m.headers ++ [(utf8Encode "X-Trace-Id", utf8Encode T)] }) ∧
    (∀ hs : List (Bytes × Bytes), dictGet hs xRequestIdKey = none →
      get_trace_id_from_headers hs freshUuid = freshUuid) := by
  have hmain : get_trace_id_from_headers headers freshUuid = T := by
    unfold get_trace_id_from_headers
    rw [hhdr]
    dsimp only
    rw [if_neg (utf8Encode_ne_nil T hne), utf8Decode_encode_ascii T hascii]
  refine ⟨hmain, ?_, ?_⟩
  · intro m
    rw [hmain]
    rfl
  · intro hs hnone
    unfold get_trace_id_from_headers
    rw [hnone]

/-- C5 witness: a request with `X-Request-Id: req-123` is answered with
`X-Trace-Id: req-123` appended after the handler's own header. -/
theorem C5_witness :
    get_trace_id_from_headers [(xRequestIdKey, utf8Encode "req-123")] "fresh-uuid" =
      "req-123" ∧
    addTraceHeader
        (get_trace_id_from_headers [(xRequestIdKey, utf8Encode "req-123")] "fresh-uuid")
        { status := 200,
          headers := [(utf8Encode "content-type", utf8Encode "application/json")] } =
      { status := 200,
        headers := [(utf8Encode "content-type", utf8Encode "application/json")] ++
          [(utf8Encode "X-Trace-Id", utf8Encode "req-123")] } :=
  ⟨(C5_trace_id_echo [(xRequestIdKey, utf8Encode "req-123")] "fresh-uuid" "req-123"
      (by decide) (by decide) rfl).1,
    (C5_trace_id_echo [(xRequestIdKey, utf8Encode "req-123")] "fresh-uuid" "req-123"
      (by decide) (by decide) rfl).2.1
      { status := 200,
        headers := [(utf8Encode "content-type", utf8Encode "application/json")] }⟩

/-- C10: when the `X-Request-Id` header is present but its value is the
empty byte string (falsy in Python) or its bytes raise on decoding, the
middleware discards it and uses the freshly generated UUID4 instead — an
empty `X-Request-Id` never produces an empty `X-Trace-Id`, since the
response header then carries the generated UUID4 string. -/
theorem C10_empty_or_undecodable_header (headers : List (Bytes × Bytes))
    (freshUuid : String)
    (h : dictGet headers xRequestIdKey = some [] ∨
      ∃ v, dictGet headers xRequestIdKey = some v ∧ utf8Decode v = none) :
    get_trace_id_from_headers headers freshUuid = freshUuid := by
  unfold get_trace_id_from_headers
  rcases h with h | ⟨v, hv, hdec⟩
  · rw [h]
    rfl
  · rw [hv]
    dsimp only
    by_cases hemp : v = []
    · rw [if_pos hemp]
    · rw [if_neg hemp, hdec]

/-- C10 witness: both the empty header value and the undecodable single
byte 0xFF yield the generated UUID4. -/
theorem C10_witness :
    get_trace_id_from_headers [(xRequestIdKey, [])] "generated-uuid" = "generated-uuid" ∧
    get_trace_id_from_headers [(xRequestIdKey, [255])] "generated-uuid" =
      "generated-uuid" :=
  ⟨C10_empty_or_undecodable_header [(xRequestIdKey, [])] "generated-uuid"
      (Or.inl (by decide)),
    C10_empty_or_undecodable_header [(xRequestIdKey, [255])] "generated-uuid"
      (Or.inr ⟨[255], by decide, by decide⟩)⟩

/-- Taking m + n elements splits into taking m and then n more. -/
theorem take_split {α : Type} (m : Nat) (l : List α) (n : Nat) :
    l.take (m + n) = l.take m ++ (l.drop m).take n := by
  induction m generalizing l with
  | zero => simp
  | succ m ih =>
    cases l with
    | nil => simp
    | cons a l =>
      have h1 : m + 1 + n = (m + n) + 1 := by omega
      rw [h1, List.take_succ_cons, List.take_succ_cons, List.drop_succ_cons,
        List.cons_append, ih]

/-- Concatenating the m consecutive windows of width k of a list gives its
first m * k elements. -/
theorem flatten_chunks {α : Type} (l : List α) (k m : Nat) :
    ((List.range m).map (fun i => (l.drop (i * k)).take k)).flatten = l.take (m * k) := by
  induction m with
  | zero => simp
  | succ m ih =>
    rw [List.range_succ, List.map_append, List.flatten_append]
    simp only [List.map_cons, List.map_nil, List.flatten_cons, List.flatten_nil,
      List.append_nil]
    rw [ih, Nat.succ_mul]
    exact (take_split (m * k) l k).symm

/-- ceil(N / k) windows of width k cover N elements. -/
theorem le_ceil_mul (N k : Nat) (hk : 0 < k) : N ≤ ((N + k - 1) / k) * k := by
  have h1 := Nat.div_add_mod (N + k - 1) k
  have h2 : (N + k - 1) % k < k := Nat.mod_lt _ hk
  rw [Nat.mul_comm]
  revert h1 h2
  generalize (N + k - 1) % k = r
  generalize k * ((N + k - 1) / k) = p
  intro h1 h2
  omega

/-- The id order on rows is transitive. -/
theorem userLe_trans : ∀ (a b c : StoredUser), userLe a b → userLe b c → userLe a c := by
  intro a b c hab hbc
  simp only [userLe, decide_eq_true_eq] at hab hbc ⊢
  omega

/-- The id order on rows is total. -/
theorem userLe_total : ∀ (a b : StoredUser), userLe a b || userLe b a := by
  intro a b
  simp only [userLe, Bool.or_eq_true, decide_eq_true_eq]
  omega

/-- The rows selected with ORDER BY id come back sorted by id. -/
theorem orderById_sorted (l : UserStore) :
    (orderById l).Pairwise (fun a b => userLe a b = true) :=
  List.sorted_mergeSort userLe_trans userLe_total l

/-- C3: for a store of N users and per_page k in [1,100], the list
operation computes offset (page-1)*k, returns at most k users sorted by
ascending id, reports total = N independently of the window, partitions
the N users exactly (pages 1..ceil(N/k) concatenate to the whole sorted
store, a permutation of the store — every user exactly once, no
duplicates, no gaps), and a page beyond ceil(N/k) yields the empty user
list with total still N, not an error. -/
theorem C3_pagination (store : UserStore) (page k : Nat)
    (hpage : 1 ≤ page) (hk1 : 1 ≤ k) (hk2 : k ≤ 100) :
    (get_users store page k).users =
      (((orderById store).drop ((page - 1) * k)).take k).map toUserResponse ∧
    (get_users store page k).users.length ≤ k ∧
    ((get_users store page k).users.map UserResponse.id).Pairwise (fun a b => a ≤ b) ∧
    (get_users store page k).total = store.length ∧
    ((List.range ((store.length + k - 1) / k)).map
        (fun i => (get_users store (i + 1) k).users)).flatten =
      (orderById store).map toUserResponse ∧
    (orderById store).Perm store ∧
    (∀ p2, (store.length + k - 1) / k < p2 →
      (get_users store p2 k).users = [] ∧ (get_users store p2 k).total = store.length) := by
  refine ⟨rfl, ?_, ?_, rfl, ?_, List.mergeSort_perm store userLe, ?_⟩
  · show ((((orderById store).drop ((page - 1) * k)).take k).map toUserResponse).length ≤ k
    rw [List.length_map, List.length_take]
    exact min_le_left _ _
  · show (((((orderById store).drop ((page - 1) * k)).take k).map toUserResponse).map
      UserResponse.id).Pairwise (fun a b => a ≤ b)
    rw [List.map_map]
    rw [List.pairwise_map]
    have hsub : List.Sublist (((orderById store).drop ((page - 1) * k)).take k)
        (orderById store) :=
      (List.take_sublist _ _).trans (List.drop_sublist _ _)
    have hlst := List.Pairwise.sublist hsub (orderById_sorted store)
    exact hlst.imp (fun hab => by
      simpa only [userLe, decide_eq_true_eq] using hab)
  · have hfun : (fun i => (get_users store (i + 1) k).users) =
        (fun i => (((orderById store).map toUserResponse).drop (i * k)).take k) := by
      funext i
      show (((orderById store).drop (i * k)).take k).map toUserResponse = _
      rw [List.map_take, List.map_drop]
    rw [hfun, flatten_chunks]
    apply List.take_of_length_le
    rw [List.length_map]
    show (orderById store).length ≤ _
    rw [orderById, List.length_mergeSort]
    exact le_ceil_mul store.length k hk1
  · intro p2 hp2
    have hlen3 : (orderById store).length ≤ (p2 - 1) * k := by
      rw [orderById, List.length_mergeSort]
      calc store.length ≤ ((store.length + k - 1) / k) * k := le_ceil_mul store.length k hk1
        _ ≤ (p2 - 1) * k := Nat.mul_le_mul_right k (by omega)
    constructor
    · show ((((orderById store).drop ((p2 - 1) * k)).take k).map toUserResponse) = []
      rw [List.drop_eq_nil_of_le hlen3, List.take_nil, List.map_nil]
    · rfl

/-- The store of the C3 witness run: three rows inserted out of id order. -/
def c3Store : UserStore :=
  [{ id := 2, name := "Bob", surname := "B", password := "p2",
     created_at := 0, updated_at := 0 },
   { id := 1, name := "Ann", surname := "A", password := "p1",
     created_at := 0, updated_at := 0 },
   { id := 3, name := "Cid", surname := "C", password := "p3",
     created_at := 0, updated_at := 0 }]

/-- C3 witness: listing the three-row store with per_page 2 — page 2 holds
at most 2 users, total is reported as 3, and the sorted listing is a
permutation of the store. -/
theorem C3_witness :
    (1 ≤ 2 ∧ 1 ≤ 2 ∧ 2 ≤ 100) ∧
    (get_users c3Store 2 2).total = 3 ∧
    (get_users c3Store 2 2).users.length ≤ 2 ∧
    (orderById c3Store).Perm c3Store :=
  ⟨⟨by decide, by decide, by decide⟩,
    (C3_pagination c3Store 2 2 (by decide) (by decide) (by decide)).2.2.2.1,
    (C3_pagination c3Store 2 2 (by decide) (by decide) (by decide)).2.1,
    (C3_pagination c3Store 2 2 (by decide) (by decide) (by decide)).2.2.2.2.2.1⟩
